import Mathlib

/-
Verification of the Yahoo Mail OAuth 2.0 client (yahoo_oauth.py).

The script is an OAuth 2.0 authorization-code-flow client with a JSON
file-backed persistent store.  We shallow-embed the store and the four
client operations.  A JSON document persisted by the program is a flat
mapping from string keys to scalar JSON values (token records and
user-info claim mappings), modelled as an association list; Python's
`dict.update` is modelled by `Dict.update` below, which keeps existing
keys in place with their new values and appends genuinely new keys, the
observable behaviour of CPython dictionaries.  The filesystem is a
function from file names to optional file contents, where a present
file either parses as a JSON object or is malformed.  Network effects
(HTTP status codes, response bodies, token fetch results and the
session-driven automatic refresh) are inputs to the embedded
operations, mirroring the Transport Adapter boundary.
-/

namespace YahooOAuth

/-- A scalar JSON value as stored in the flat token / user-info documents. -/
inductive JsonVal where
  | str (s : String)
  | num (n : Int)
  | boolean (b : Bool)
  | null
deriving DecidableEq, Repr

/-- A JSON object: a flat mapping from string keys to values, as an
association list. -/
abbrev Dict := List (String × JsonVal)

/-- First-match lookup of a key, Python's `d[k]` / `k in d`. -/
def Dict.get (d : Dict) (k : String) : Option JsonVal :=
  match d with
  | [] => none
  | (k', v) :: rest => if k' = k then some v else Dict.get rest k

/-- Python's `old.update(new)`: keys already in `old` stay in place and
receive the value from `new` when `new` has them; keys only in `new`
are appended in order. -/
def Dict.update (old new : Dict) : Dict :=
  (old.map fun p =>
    match Dict.get new p.1 with
    | some v => (p.1, v)
    | none => p)
  ++ new.filter fun p => (Dict.get old p.1).isNone

/-- Lookup in the merge of `o` (older) and `n` (newer, takes
precedence): the specification's merge law, stated pointwise. -/
def Dict.mergeGet (o n : Dict) (k : String) : Option JsonVal :=
  match Dict.get n k with
  | some v => some v
  | none => Dict.get o k

/-- Content of a file that exists: either a JSON object or malformed
data that `json.load` rejects. -/
inductive FileContent where
  | valid (d : Dict)
  | malformed
deriving DecidableEq, Repr

/-- The filesystem: `none` means the file does not exist. -/
abbrev FS := String → Option FileContent

/-- The empty filesystem. -/
def emptyFS : FS := fun _ => none

/-- Embeds `__read_file__`: `json.load` of the named file, returning
`None` (here `none`) when the file is missing (`FileNotFoundError`) or
its content is malformed (`json.JSONDecodeError`). -/
def read_file (fs : FS) (file_name : String) : Option Dict :=
  match fs file_name with
  | some (FileContent.valid d) => some d
  | some FileContent.malformed => none
  | none => none

/-- Embeds `__write_file__`: load existing content via `__read_file__`
(defaulting to the empty dict), `existing_data.update(data)`, and dump
the merged result back to the file. -/
def write_file (fs : FS) (data : Dict) (file_name : String) : FS :=
  let existing_data := (read_file fs file_name).getD []
  let merged := Dict.update existing_data data
  fun n => if n = file_name then some (FileContent.valid merged) else fs n

/-- Embeds `__del_file__`: `os.remove`, with `OSError` (in particular a
missing file) swallowed, so the file is absent afterwards in any case. -/
def del_file (fs : FS) (file_name : String) : FS :=
  fun n => if n = file_name then none else fs n

/-- The two configured storage paths (environment variables TOKEN_FILE
and INFO_FILE). -/
structure Config where
  tokenFile : String
  infoFile : String

/-- Embeds `__refresh_access_token__`, the session's `token_updater`
callback, invoked once per automatic refresh: merge-write the new token
to the token file and return it. -/
def refresh_access_token (cfg : Config) (fs : FS) (new_token : Dict) : Dict × FS :=
  (new_token, write_file fs new_token cfg.tokenFile)

/-- Failures surfaced by the embedded operations.  `noTokenError` is
the taxonomy name for the failure raised when no usable token record is
on disk (in the Python source this surfaces as the uncaught exception
from subscripting / attaching a `None` token). -/
inductive OAuthError where
  | noTokenError
  | tokenExchangeError
deriving DecidableEq, Repr

/-- Embeds `exchange_authorization_code`: `oauth.fetch_token` either
raises (modelled by an `error` fetch result, which propagates before
any write happens) or returns the token body with the library-derived
absolute expiry; on success the token is merge-written to the token
file and returned. -/
def exchange_authorization_code (cfg : Config) (fs : FS)
    (fetch_result : Except OAuthError Dict) : Except OAuthError Dict × FS :=
  match fetch_result with
  | Except.error e => (Except.error e, fs)
  | Except.ok token => (Except.ok token, write_file fs token cfg.tokenFile)

/-- Embeds `get_userinfo`: load the token file into the session (the
session rejects a `None` token, the no-token failure); issue the
authenticated POST, during which the session may perform one automatic
refresh (input `refreshed`, persisted via `__refresh_access_token__`);
on HTTP 200 merge-write the response body to the info file and return
it, otherwise return the empty mapping. -/
def get_userinfo (cfg : Config) (fs : FS) (refreshed : Option Dict)
    (status : Nat) (body : Dict) : Except OAuthError (Dict × FS) :=
  match read_file fs cfg.tokenFile with
  | none => Except.error OAuthError.noTokenError
  | some _token =>
    let fs1 := match refreshed with
      | some new_token => (refresh_access_token cfg fs new_token).2
      | none => fs
    if status = 200 then Except.ok (body, write_file fs1 body cfg.infoFile)
    else Except.ok ([], fs1)

/-- Embeds `revoke_grant`: load the token file and take its
`refresh_token` entry (failing, before any network call, when the file
is absent or the entry missing); POST it to the revocation endpoint;
on HTTP 200 delete the token file and return `true`, otherwise return
`false` leaving the filesystem untouched. -/
def revoke_grant (cfg : Config) (fs : FS) (status : Nat) :
    Except OAuthError (Bool × FS) :=
  match read_file fs cfg.tokenFile with
  | none => Except.error OAuthError.noTokenError
  | some token =>
    match Dict.get token ("refresh_token") with
    | none => Except.error OAuthError.noTokenError
    | some _refresh_token =>
      if status = 200 then Except.ok (true, del_file fs cfg.tokenFile)
      else Except.ok (false, fs)

/-- Sample storage paths for concrete instantiations. -/
def tokenPath : String := "token.json"

/-- Sample info path for concrete instantiations. -/
def infoPath : String := "info.json"

/-- Sample configuration. -/
def cfgW : Config := ⟨tokenPath, infoPath⟩

/-- A sample stored token record, carrying a `scope` field. -/
def oldTokenW : Dict :=
  [("access_token", JsonVal.str ("A")),
   ("refresh_token", JsonVal.str ("R")),
   ("scope", JsonVal.str ("openid"))]

/-- A sample refresh / exchange response that omits `scope`. -/
def newTokenW : Dict :=
  [("access_token", JsonVal.str ("B")),
   ("expires_in", JsonVal.num 3600)]

/-- A filesystem holding the sample token record. -/
def fsTokenW : FS := write_file emptyFS oldTokenW tokenPath

/-- A filesystem holding a token record without a refresh token. -/
def fsNoRefreshW : FS := write_file emptyFS newTokenW tokenPath

/-- A filesystem whose token file exists but is malformed. -/
def fsMalformedW : FS :=
  fun n => if n = tokenPath then some FileContent.malformed else none

/-- Lookup distributes over list append, first list first. -/
theorem Dict.get_append (l1 l2 : Dict) (k : String) :
    Dict.get (l1 ++ l2) k =
      match Dict.get l1 k with
      | some v => some v
      | none => Dict.get l2 k := by
  induction l1 with
  | nil => simp [Dict.get]
  | cons p rest ih =>
    obtain ⟨k', v'⟩ := p
    by_cases h : k' = k
    · simp [Dict.get, h]
    · simp [Dict.get, h, ih]

/-- Lookup in the overwrite-in-place part of `Dict.update`. -/
theorem Dict.get_map_overwrite (n o : Dict) (k : String) :
    Dict.get (o.map fun p =>
      match Dict.get n p.1 with
      | some v => (p.1, v)
      | none => p) k =
      match Dict.get o k with
      | none => none
      | some v =>
        match Dict.get n k with
        | some w => some w
        | none => some v := by
  induction o with
  | nil => simp [Dict.get]
  | cons p rest ih =>
    obtain ⟨k', v'⟩ := p
    by_cases h : k' = k
    · subst h
      cases hn : Dict.get n k' <;> simp [Dict.get, hn]
    · cases hn : Dict.get n k' <;> simp [Dict.get, hn, h, ih]

/-- Lookup in the appended-fresh-keys part of `Dict.update`. -/
theorem Dict.get_filter_fresh (o n : Dict) (k : String) :
    Dict.get (n.filter fun p => (Dict.get o p.1).isNone) k =
      if (Dict.get o k).isNone then Dict.get n k else none := by
  induction n with
  | nil => simp [Dict.get]
  | cons p rest ih =>
    obtain ⟨k', v'⟩ := p
    by_cases h : k' = k
    · subst h
      cases ho : Dict.get o k' <;>
        simp [List.filter, Dict.get, ho, ih]
    · cases hp : (Dict.get o k').isNone <;>
        simp [List.filter, Dict.get, h, hp, ih]

/-- The merge law for `Dict.update`, pointwise: the newer dict's keys
take precedence, the older dict's other keys survive, keys in neither
are absent. -/
theorem Dict.get_update (o n : Dict) (k : String) :
    Dict.get (Dict.update o n) k = Dict.mergeGet o n k := by
  unfold Dict.update Dict.mergeGet
  rw [Dict.get_append, Dict.get_map_overwrite, Dict.get_filter_fresh]
  cases ho : Dict.get o k <;> cases hn : Dict.get n k <;> simp [ho, hn]

/-- Updating the empty dict gives back exactly the new dict. -/
theorem Dict.update_nil (n : Dict) : Dict.update [] n = n := by
  unfold Dict.update
  have h : (n.filter fun p => (Dict.get [] p.1).isNone) = n :=
    List.filter_eq_self.mpr fun a _ => rfl
  simp [h]

/-- Reading a file straight after writing it yields the merge of the
previous content (empty when absent or malformed) with the new data. -/
theorem read_write_same (fs : FS) (d : Dict) (name : String) :
    read_file (write_file fs d name) name =
      some (Dict.update ((read_file fs name).getD []) d) := by
  simp [read_file, write_file]

/-- Writing one file leaves every other file unchanged. -/
theorem read_write_other (fs : FS) (d : Dict) (name n : String) (h : n ≠ name) :
    read_file (write_file fs d name) n = read_file fs n := by
  simp [read_file, write_file, h]

/-- C1: writing `d1` then `d2` to the same resource of an initially
empty store leaves exactly the merge of `d1` and `d2` with `d2`'s keys
taking precedence, and keys present in neither are absent. -/
theorem store_write_write_merge_law (name : String) (d1 d2 : Dict) :
    ∃ m, read_file (write_file (write_file emptyFS d1 name) d2 name) name = some m ∧
      (∀ k, Dict.get m k = Dict.mergeGet d1 d2 k) ∧
      (∀ k, Dict.get d1 k = none → Dict.get d2 k = none → Dict.get m k = none) := by
  refine ⟨Dict.update d1 d2, ?_, ?_, ?_⟩
  · rw [read_write_same, read_write_same]
    simp [read_file, emptyFS, Dict.update_nil]
  · intro k
    exact Dict.get_update d1 d2 k
  · intro k h1 h2
    rw [Dict.get_update]
    simp [Dict.mergeGet, h1, h2]

/-- C1 witness: concrete instantiation at the sample token records. -/
theorem store_write_write_merge_law_witness :
    ∃ m, read_file (write_file (write_file emptyFS oldTokenW tokenPath) newTokenW tokenPath)
        tokenPath = some m ∧
      (∀ k, Dict.get m k = Dict.mergeGet oldTokenW newTokenW k) ∧
      (∀ k, Dict.get oldTokenW k = none → Dict.get newTokenW k = none → Dict.get m k = none) :=
  store_write_write_merge_law tokenPath oldTokenW newTokenW

/-- C7: reading a resource that does not exist, or whose content is
malformed JSON, returns absent rather than failing. -/
theorem read_file_fail_open (fs : FS) (name : String)
    (h : fs name = none ∨ fs name = some FileContent.malformed) :
    read_file fs name = none := by
  rcases h with h | h <;> simp [read_file, h]

/-- C7 witness: the absent case on the empty filesystem and the
malformed case on the corrupted filesystem. -/
theorem read_file_fail_open_witness :
    (emptyFS tokenPath = none ∨ emptyFS tokenPath = some FileContent.malformed) ∧
    read_file emptyFS tokenPath = none ∧
    (fsMalformedW tokenPath = none ∨ fsMalformedW tokenPath = some FileContent.malformed) ∧
    read_file fsMalformedW tokenPath = none :=
  ⟨Or.inl rfl, read_file_fail_open emptyFS tokenPath (Or.inl rfl),
   Or.inr (by decide), read_file_fail_open fsMalformedW tokenPath (Or.inr (by decide))⟩

/-- C8: deleting an absent resource is a no-op that never fails, and
deletion is idempotent: a second delete succeeds and the resource stays
absent. -/
theorem del_file_idempotent_noop (fs : FS) (name : String) (h : fs name = none) :
    (∀ n, del_file fs name n = fs n) ∧
    (∀ n, del_file (del_file fs name) name n = del_file fs name n) ∧
    read_file (del_file fs name) name = none := by
  refine ⟨?_, ?_, ?_⟩
  · intro n
    by_cases hn : n = name <;> simp [del_file, hn, h]
  · intro n
    by_cases hn : n = name <;> simp [del_file, hn]
  · simp [read_file, del_file]

/-- C8 witness: deleting the absent token file of the empty
filesystem. -/
theorem del_file_idempotent_noop_witness :
    emptyFS tokenPath = none ∧
    ((∀ n, del_file emptyFS tokenPath n = emptyFS n) ∧
     (∀ n, del_file (del_file emptyFS tokenPath) tokenPath n = del_file emptyFS tokenPath n) ∧
     read_file (del_file emptyFS tokenPath) tokenPath = none) :=
  ⟨rfl, del_file_idempotent_noop emptyFS tokenPath rfl⟩

/-- C9: writing over a resource whose existing content is malformed
JSON silently discards the corrupt content and stores exactly the new
data, as if the file had been absent. -/
theorem write_file_over_malformed (fs : FS) (name : String) (d : Dict)
    (h : fs name = some FileContent.malformed) :
    read_file (write_file fs d name) name = some d := by
  rw [read_write_same]
  simp [read_file, h, Dict.update_nil]

/-- C9 witness: writing the sample refresh response over a malformed
token file. -/
theorem write_file_over_malformed_witness :
    fsMalformedW tokenPath = some FileContent.malformed ∧
    read_file (write_file fsMalformedW newTokenW tokenPath) tokenPath = some newTokenW :=
  ⟨by decide, write_file_over_malformed fsMalformedW tokenPath newTokenW (by decide)⟩

/-- C10: when the token fetch of the code exchange fails, the error
propagates and the filesystem — in particular the persisted token
store — is left completely unchanged. -/
theorem exchange_code_failure_leaves_store (cfg : Config) (fs : FS) (e : OAuthError) :
    exchange_authorization_code cfg fs (Except.error e) = (Except.error e, fs) ∧
    read_file (exchange_authorization_code cfg fs (Except.error e)).2 cfg.tokenFile =
      read_file fs cfg.tokenFile :=
  ⟨rfl, rfl⟩

/-- C2: a refresh persists the new token to the token store by
merge-write: the callback returns the new token, the store afterwards
holds a record in which every key of the refresh response overwrites
the same-named stored key, while stored keys absent from the response
(such as an unreturned scope field) survive. -/
theorem refresh_persists_merged (cfg : Config) (fs : FS) (old new_token : Dict)
    (h : read_file fs cfg.tokenFile = some old) :
    (refresh_access_token cfg fs new_token).1 = new_token ∧
    ∃ m, read_file (refresh_access_token cfg fs new_token).2 cfg.tokenFile = some m ∧
      (∀ k v, Dict.get old k = some v → Dict.get new_token k = none →
        Dict.get m k = some v) ∧
      (∀ k v, Dict.get new_token k = some v → Dict.get m k = some v) := by
  refine ⟨rfl, Dict.update old new_token, ?_, ?_, ?_⟩
  · show read_file (write_file fs new_token cfg.tokenFile) cfg.tokenFile = _
    rw [read_write_same, h]
    rfl
  · intro k v h1 h2
    rw [Dict.get_update]
    simp [Dict.mergeGet, h1, h2]
  · intro k v h1
    rw [Dict.get_update]
    simp [Dict.mergeGet, h1]

/-- C2 witness: refreshing the sample stored token (which has a scope
field) with a response that omits scope. -/
theorem refresh_persists_merged_witness :
    read_file fsTokenW cfgW.tokenFile = some oldTokenW ∧
    ((refresh_access_token cfgW fsTokenW newTokenW).1 = newTokenW ∧
     ∃ m, read_file (refresh_access_token cfgW fsTokenW newTokenW).2 cfgW.tokenFile = some m ∧
       (∀ k v, Dict.get oldTokenW k = some v → Dict.get newTokenW k = none →
         Dict.get m k = some v) ∧
       (∀ k v, Dict.get newTokenW k = some v → Dict.get m k = some v)) :=
  ⟨by decide, refresh_persists_merged cfgW fsTokenW oldTokenW newTokenW (by decide)⟩

/-- C3: with a persisted token record that has a refresh token, a
revocation answered with HTTP 200 returns true and deletes the token
file (a subsequent read returns absent); any other status returns
false and leaves the filesystem untouched. -/
theorem revoke_grant_contract (cfg : Config) (fs : FS) (token : Dict) (rt : JsonVal)
    (status : Nat)
    (h1 : read_file fs cfg.tokenFile = some token)
    (h2 : Dict.get token ("refresh_token") = some rt) :
    (status = 200 →
      revoke_grant cfg fs status = Except.ok (true, del_file fs cfg.tokenFile) ∧
      read_file (del_file fs cfg.tokenFile) cfg.tokenFile = none) ∧
    (status ≠ 200 → revoke_grant cfg fs status = Except.ok (false, fs)) := by
  refine ⟨?_, ?_⟩
  · intro hs
    subst hs
    refine ⟨?_, ?_⟩
    · simp [revoke_grant, h1, h2]
    · simp [read_file, del_file]
  · intro hs
    simp [revoke_grant, h1, h2, hs]

/-- C3 witness: revoking the sample stored token with an HTTP 200
answer. -/
theorem revoke_grant_contract_witness :
    read_file fsTokenW cfgW.tokenFile = some oldTokenW ∧
    Dict.get oldTokenW ("refresh_token") = some (JsonVal.str ("R")) ∧
    ((200 = 200 →
      revoke_grant cfgW fsTokenW 200 = Except.ok (true, del_file fsTokenW cfgW.tokenFile) ∧
      read_file (del_file fsTokenW cfgW.tokenFile) cfgW.tokenFile = none) ∧
     (200 ≠ 200 → revoke_grant cfgW fsTokenW 200 = Except.ok (false, fsTokenW))) :=
  ⟨by decide, by decide,
   revoke_grant_contract cfgW fsTokenW oldTokenW (JsonVal.str ("R")) 200
     (by decide) (by decide)⟩

/-- C4: with a persisted token, a user-info call answered with any
non-200 status returns the empty mapping without failing and leaves
the stored info resource unchanged (even if an automatic refresh wrote
the token file meanwhile); an HTTP 200 answer returns the parsed body
and persists it to the info store. -/
theorem get_userinfo_contract (cfg : Config) (fs : FS) (token : Dict)
    (refreshed : Option Dict) (status : Nat) (body : Dict)
    (htok : read_file fs cfg.tokenFile = some token)
    (hfiles : cfg.infoFile ≠ cfg.tokenFile) :
    (status ≠ 200 → ∃ fs1,
      get_userinfo cfg fs refreshed status body = Except.ok ([], fs1) ∧
      read_file fs1 cfg.infoFile = read_file fs cfg.infoFile) ∧
    (status = 200 → ∃ fs1 m,
      get_userinfo cfg fs refreshed status body = Except.ok (body, fs1) ∧
      read_file fs1 cfg.infoFile = some m ∧
      ∀ k v, Dict.get body k = some v → Dict.get m k = some v) := by
  refine ⟨?_, ?_⟩
  · intro hs
    cases refreshed with
    | none =>
      refine ⟨fs, ?_, rfl⟩
      simp [get_userinfo, htok, hs]
    | some nt =>
      refine ⟨(refresh_access_token cfg fs nt).2, ?_, ?_⟩
      · simp [get_userinfo, refresh_access_token, htok, hs]
      · exact read_write_other fs nt cfg.tokenFile cfg.infoFile hfiles
  · intro hs
    subst hs
    cases refreshed with
    | none =>
      refine ⟨write_file fs body cfg.infoFile,
        Dict.update ((read_file fs cfg.infoFile).getD []) body, ?_, ?_, ?_⟩
      · simp [get_userinfo, htok]
      · exact read_write_same fs body cfg.infoFile
      · intro k v hv
        rw [Dict.get_update]
        simp [Dict.mergeGet, hv]
    | some nt =>
      refine ⟨write_file (refresh_access_token cfg fs nt).2 body cfg.infoFile,
        Dict.update ((read_file (refresh_access_token cfg fs nt).2 cfg.infoFile).getD [])
          body, ?_, ?_, ?_⟩
      · simp [get_userinfo, refresh_access_token, htok]
      · exact read_write_same (refresh_access_token cfg fs nt).2 body cfg.infoFile
      · intro k v hv
        rw [Dict.get_update]
        simp [Dict.mergeGet, hv]

/-- C4 witness: a user-info call answered with HTTP 401 while an
automatic refresh happened, on the sample filesystem. -/
theorem get_userinfo_contract_witness :
    read_file fsTokenW cfgW.tokenFile = some oldTokenW ∧
    cfgW.infoFile ≠ cfgW.tokenFile ∧
    ((401 ≠ 200 → ∃ fs1,
      get_userinfo cfgW fsTokenW (some newTokenW) 401 [] = Except.ok ([], fs1) ∧
      read_file fs1 cfgW.infoFile = read_file fsTokenW cfgW.infoFile) ∧
     (401 = 200 → ∃ fs1 m,
      get_userinfo cfgW fsTokenW (some newTokenW) 401 [] = Except.ok ([], fs1) ∧
      read_file fs1 cfgW.infoFile = some m ∧
      ∀ k v, Dict.get ([] : Dict) k = some v → Dict.get m k = some v)) :=
  ⟨by decide, by decide,
   get_userinfo_contract cfgW fsTokenW oldTokenW (some newTokenW) 401 []
     (by decide) (by decide)⟩

/-- C5: a successful code exchange returns the fetched token record
(the provider's mapping plus the library-derived absolute expiry) and
persists it: every key of the record is stored with the record's
value, and on a previously empty store the stored record is exactly
the returned one. -/
theorem exchange_code_success_persists (cfg : Config) (fs : FS) (token : Dict) :
    (exchange_authorization_code cfg fs (Except.ok token)).1 = Except.ok token ∧
    ∃ m, read_file (exchange_authorization_code cfg fs (Except.ok token)).2
        cfg.tokenFile = some m ∧
      (∀ k v, Dict.get token k = some v → Dict.get m k = some v) ∧
      (read_file fs cfg.tokenFile = none → m = token) := by
  refine ⟨rfl, Dict.update ((read_file fs cfg.tokenFile).getD []) token, ?_, ?_, ?_⟩
  · exact read_write_same fs token cfg.tokenFile
  · intro k v hv
    rw [Dict.get_update]
    simp [Dict.mergeGet, hv]
  · intro h
    rw [h]
    simp [Dict.update_nil]

/-- C5 witness: exchanging a code on the empty store with the sample
token response. -/
theorem exchange_code_success_persists_witness :
    (exchange_authorization_code cfgW emptyFS (Except.ok newTokenW)).1 =
      Except.ok newTokenW ∧
    ∃ m, read_file (exchange_authorization_code cfgW emptyFS (Except.ok newTokenW)).2
        cfgW.tokenFile = some m ∧
      (∀ k v, Dict.get newTokenW k = some v → Dict.get m k = some v) ∧
      (read_file emptyFS cfgW.tokenFile = none → m = newTokenW) :=
  exchange_code_success_persists cfgW emptyFS newTokenW

/-- C6: with no readable persisted token record, the user-info call
fails with the no-token error; the revocation call fails with the
no-token error both when the record is absent and when the stored
record lacks a refresh token, in each case before any deletion or
write. -/
theorem no_token_failures (cfg : Config) (fs0 fs1 : FS) (token : Dict)
    (refreshed : Option Dict) (status : Nat) (body : Dict) :
    (read_file fs0 cfg.tokenFile = none →
      get_userinfo cfg fs0 refreshed status body =
        Except.error OAuthError.noTokenError) ∧
    (read_file fs0 cfg.tokenFile = none →
      revoke_grant cfg fs0 status = Except.error OAuthError.noTokenError) ∧
    (read_file fs1 cfg.tokenFile = some token →
      Dict.get token ("refresh_token") = none →
      revoke_grant cfg fs1 status = Except.error OAuthError.noTokenError) := by
  refine ⟨fun h => ?_, fun h => ?_, fun h1 h2 => ?_⟩
  · simp [get_userinfo, h]
  · simp [revoke_grant, h]
  · simp [revoke_grant, h1, h2]

/-- C6 witness: instantiated at the empty store for the absent-record
cases, and at a store holding a token record without a refresh token
for the missing-refresh-token case. -/
theorem no_token_failures_witness :
    ((read_file emptyFS cfgW.tokenFile = none →
      get_userinfo cfgW emptyFS none 200 [] =
        Except.error OAuthError.noTokenError) ∧
    (read_file emptyFS cfgW.tokenFile = none →
      revoke_grant cfgW emptyFS 200 = Except.error OAuthError.noTokenError) ∧
    (read_file fsNoRefreshW cfgW.tokenFile = some newTokenW →
      Dict.get newTokenW ("refresh_token") = none →
      revoke_grant cfgW fsNoRefreshW 200 = Except.error OAuthError.noTokenError)) ∧
    read_file emptyFS cfgW.tokenFile = none ∧
    read_file fsNoRefreshW cfgW.tokenFile = some newTokenW ∧
    Dict.get newTokenW ("refresh_token") = none :=
  ⟨no_token_failures cfgW emptyFS fsNoRefreshW newTokenW none 200 [],
   rfl, by decide, by decide⟩

end YahooOAuth
